import Mathlib

set_option maxRecDepth 8192

/-!
# Verification of the Docker image synchronization core (src/app4/Docker_UI.py)

Shallow embedding of the state-rebuilding and filtering logic of the
Docker manager module. Python strings are modelled as Lean strings
(str.lower as an ASCII lowering, substring membership via list infix);
HTTP interactions are modelled as explicit response values; the mutable
instance attributes (artifactory_images, local_images) are modelled as
explicit previous-state arguments, returning the new state together with
the error surfaced to the user, if any.
-/

namespace DockerUI

/-- Python str.split(sep) for a one-character separator, on char lists. -/
def splitChar (c : Char) : List Char → List (List Char)
  | [] => [[]]
  | a :: as =>
    match splitChar c as with
    | [] => if a = c then [[]] else [[a]]
    | x :: xs => if a = c then [] :: x :: xs else (a :: x) :: xs

/-- Python str.split(sep) lifted to strings. -/
def pySplit (c : Char) (s : String) : List String :=
  (splitChar c s.toList).map (fun l => String.mk l)

/-- Python "needle in haystack" for strings: contiguous substring test. -/
def pyInStr (needle hay : String) : Bool :=
  decide (needle.toList <:+: hay.toList)

/-- Python str.lower, modelled as per-character lowering. -/
def pyLower (s : String) : String :=
  String.mk (s.toList.map Char.toLower)

/-- Python str.replace on char lists: replace every non-overlapping
occurrence of pat, scanning left to right (pat assumed non-empty);
fuel bounds the recursion by the input length to keep it structural. -/
def replaceListFuel (pat rep : List Char) : Nat → List Char → List Char
  | _, [] => []
  | 0, l => l
  | fuel + 1, a :: as =>
    if pat ≠ [] ∧ pat.isPrefixOf (a :: as) then
      rep ++ replaceListFuel pat rep fuel (as.drop (pat.length - 1))
    else
      a :: replaceListFuel pat rep fuel as

/-- Python str.replace lifted to strings. -/
def pyReplace (s pat rep : String) : String :=
  String.mk (replaceListFuel pat.toList rep.toList s.toList.length s.toList)

/-- url.replace("https://", "").replace("http://", "") from line 750. -/
def stripScheme (url : String) : String :=
  pyReplace (pyReplace url "https://" "") "http://" ""

/-- An HTTP response as seen by the module: a status code and a decoded
JSON body (the body type records just the field the module reads). -/
structure HttpResp (α : Type) where
  status : Nat
  body : α
deriving DecidableEq

/-- Outcome of a requests.get call: a response, or a raised exception
(timeout, DNS, connection error) carrying its message. -/
inductive Fetched (α : Type) where
  | ok (resp : HttpResp α) : Fetched α
  | exn (msg : String) : Fetched α
deriving DecidableEq

/-- One row of self.artifactory_images: the dict built at lines 751-757.
The record has exactly these five keys and no error field. -/
structure ArtifactoryImage where
  name : String
  tag : String
  full_name : String
  size : String
  created : String
deriving DecidableEq

/-- The dict appended for one (image, tag) pair, lines 750-757. -/
def mkArtifactoryImage (url repo image tag : String) : ArtifactoryImage :=
  { name := image
    tag := tag
    full_name := stripScheme url ++ "/" ++ repo ++ "/" ++ image ++ ":" ++ tag
    size := "N/A"
    created := "N/A" }

/-- The per-repository loop of fetch_artifactory_images (lines 736-757).
Catalog body: data.get("repositories", []) as Option (List String);
tags body: tags_data.get("tags", ["latest"]) as Option (List String).
A tag-list exception propagates to the outer handler, aborting the loop
with the partial list built so far; a non-2xx tag-list response is
skipped silently (the if at line 745 has no else branch). -/
def buildCatalog (url repo : String) (tagsOf : String → Fetched (Option (List String))) :
    List String → List ArtifactoryImage × Option String
  | [] => ([], none)
  | image :: rest =>
    match tagsOf image with
    | .exn e => ([], some ("Failed to fetch images: " ++ e))
    | .ok resp =>
      let here :=
        if resp.status = 200 then
          (resp.body.getD ["latest"]).map (mkArtifactoryImage url repo image)
        else []
      let (more, err) := buildCatalog url repo tagsOf rest
      (here ++ more, err)

/-- fetch_artifactory_images (lines 709-766) as a function of the
previous self.artifactory_images list and the network responses.
Returns the new list and the error surfaced in a dialog, if any.
The list is cleared (line 733) only inside the 200 branch, so a catalog
exception or non-2xx status leaves the previous list untouched. -/
def fetch_artifactory_images (prev : List ArtifactoryImage) (url repo : String)
    (catalog : Fetched (Option (List String)))
    (tagsOf : String → Fetched (Option (List String))) :
    List ArtifactoryImage × Option String :=
  match catalog with
  | .exn e => (prev, some ("Failed to fetch images: " ++ e))
  | .ok resp =>
    if resp.status = 200 then
      buildCatalog url repo tagsOf (resp.body.getD [])
    else
      (prev, some ("Failed to fetch images: HTTP " ++ toString resp.status))

/-- One image reported by docker_client.images.list(): the attributes the
module reads (tags list, short id, byte size, created timestamp). -/
structure RuntimeImage where
  tags : List String
  short_id : String
  sizeBytes : Nat
  created : String
deriving DecidableEq

/-- One row of self.local_images: the dict built at lines 843-850. -/
structure LocalImage where
  repository : String
  tag : String
  id : String
  size : String
  created : String
  full_name : String
deriving DecidableEq

/-- Line 842: repo, tag_name = tag.split(":") if ":" in tag else (tag, "latest").
Destructuring the split of a string with two or more colons raises
ValueError, modelled as the error case. -/
def parseTag (t : String) : Except String (String × String) :=
  if t.toList.contains ':' then
    match pySplit ':' t with
    | [r, tg] => .ok (r, tg)
    | _ => .error "too many values to unpack (expected 2)"
  else
    .ok (t, "latest")

/-- Two-decimal zero padding for the size display. -/
def pad2 (n : Nat) : String :=
  if n < 10 then "0" ++ toString n else toString n

/-- The size display f-string of line 847 (Size / 1024 / 1024 to two
decimals); the Python float formatting is modelled by exact rational
rounding to hundredths. -/
def fmtSizeMB (bytes : Nat) : String :=
  let centi := (bytes * 100 + 524288) / 1048576
  toString (centi / 100) ++ "." ++ pad2 (centi % 100) ++ " MB"

/-- The dict appended for one parsed (repo, tag_name) pair, lines 843-850. -/
def mkLocalImage (img : RuntimeImage) (repo tagName : String) : LocalImage :=
  { repository := repo
    tag := tagName
    id := img.short_id
    size := fmtSizeMB img.sizeBytes
    created := img.created.take 19
    full_name := repo ++ ":" ++ tagName }

/-- Line 840: tags = image.tags if image.tags else ["<none>"]. -/
def effTags (img : RuntimeImage) : List String :=
  if img.tags.isEmpty then ["<none>"] else img.tags

/-- The inner tag loop of refresh_local_images (lines 841-850): records
appended one tag at a time; a ValueError aborts the loop keeping the
records appended so far. -/
def buildTagRecords (img : RuntimeImage) : List String → List LocalImage × Option String
  | [] => ([], none)
  | t :: ts =>
    match parseTag t with
    | .error e => ([], some ("Failed to refresh local images: " ++ e))
    | .ok (r, tg) =>
      let (rest, err) := buildTagRecords img ts
      (mkLocalImage img r tg :: rest, err)

/-- The outer image loop of refresh_local_images (lines 839-850): an
exception in one image's tags aborts the remaining images, keeping the
partial list. -/
def buildLocalImages : List RuntimeImage → List LocalImage × Option String
  | [] => ([], none)
  | img :: rest =>
    let (here, err) := buildTagRecords img (effTags img)
    match err with
    | some e => (here, some e)
    | none =>
      let (more, err2) := buildLocalImages rest
      (here ++ more, err2)

/-- refresh_local_images (lines 829-856) as a function of the previous
self.local_images list, Docker availability (line 831), and the result
of docker_client.images.list(). Returns the new list and the surfaced
error, if any. The list is cleared (line 837) only after images.list()
succeeds, so the guard and a list() exception retain the previous list. -/
def refresh_local_images (prev : List LocalImage) (dockerAvailable : Bool)
    (listResult : Except String (List RuntimeImage)) :
    List LocalImage × Option String :=
  if !dockerAvailable then
    (prev, some "Docker is not available")
  else
    match listResult with
    | .error e => (prev, some ("Failed to refresh local images: " ++ e))
    | .ok imgs => buildLocalImages imgs

/-- The record refresh_local_images derives from one runtime image and
one of its tag strings, when the tag destructures without error. -/
def mkFromTag (img : RuntimeImage) (t : String) : Option LocalImage :=
  match parseTag t with
  | .ok (r, tg) => some (mkLocalImage img r tg)
  | .error _ => none

/-- The per-row predicate of filter_local_images (lines 895-905): the
lowered search text is sought in columns 0-2, which hold the repository,
the tag and the image id (header at line 469). -/
def rowMatches (search : String) (img : LocalImage) : Bool :=
  pyInStr (pyLower search) (pyLower img.repository) ||
  pyInStr (pyLower search) (pyLower img.tag) ||
  pyInStr (pyLower search) (pyLower img.id)

/-- filter_local_images as the sequence of rows left visible: the table
rows are the view in order, and a row is hidden iff no searched column
matches. -/
def filter_local_images (imgs : List LocalImage) (search : String) : List LocalImage :=
  imgs.filter (rowMatches search)

/-- A signal emitted by DockerWorker (lines 46-51). -/
inductive WorkerEvent where
  | progress (msg : String) : WorkerEvent
  | errorMsg (msg : String) : WorkerEvent
  | finished (ok : Bool) : WorkerEvent
deriving DecidableEq

/-- The signal trace of one DockerWorker running operation "pull"
(run at lines 59-83 and pull_image at lines 85-95), as a function of the
outcome of client.images.pull. -/
def pullEvents (fullName : String) (result : Except String Unit) : List WorkerEvent :=
  match result with
  | .ok _ =>
    [ .progress ("Pulling " ++ fullName ++ "...")
    , .progress ("Successfully pulled " ++ fullName)
    , .finished true ]
  | .error e =>
    [ .progress ("Pulling " ++ fullName ++ "...")
    , .errorMsg ("Failed to pull " ++ fullName ++ ": " ++ e)
    , .finished false ]

/-- download_selected_images (lines 807-827) with every confirmation
dialog answered Yes: each selected image gets its own DockerWorker, whose
trace depends only on that image's pull outcome. The image dicts are
returned as passed in: no field of any record is written by the batch,
and no aggregate run outcome is produced. -/
def download_selected_images (targets : List ArtifactoryImage)
    (puller : String → Except String Unit) :
    List (ArtifactoryImage × List WorkerEvent) :=
  targets.map (fun t => (t, pullEvents t.full_name (puller t.full_name)))

/-- The set of started, unfinished DockerWorkers, by target full_name. -/
structure EngineState where
  inFlight : List String
deriving DecidableEq

/-- download_image (lines 792-805) with the confirmation answered Yes:
a new DockerWorker is constructed and started unconditionally; no
structure tracks per-ref in-flight work, so nothing is queued. -/
def download_image_submit (s : EngineState) (fullName : String) : EngineState :=
  { inFlight := fullName :: s.inFlight }

/-- Modelled from the spec: the cache archive naming convention
"repository_tag.tar" of spec sections 4.2 and 6 with the split-and-
destructure decoding style flagged in section 9; the source module never
implements archive saving or cache-directory scanning. -/
def cacheFileName (repo tag : String) : String :=
  repo ++ "_" ++ tag ++ ".tar"

/-- Modelled from the spec: decoding a cache filename back to a ref by
stripping the ".tar" suffix and destructuring the underscore split, in
the style of the source's colon destructure at line 842. -/
def parseCacheFileName (s : String) : Option (String × String) :=
  let cs := s.toList
  if (".tar".toList).isSuffixOf cs then
    match (splitChar '_' (cs.take (cs.length - 4))).map (fun l => String.mk l) with
    | [r, t] => some (r, t)
    | _ => none
  else none

end DockerUI

namespace DockerUI

/-! ## Helper lemmas about the split used at line 842 -/

theorem splitChar_ne_nil (c : Char) (l : List Char) : splitChar c l ≠ [] := by
  induction l with
  | nil => simp [splitChar]
  | cons a as ih =>
    cases h : splitChar c as <;> by_cases hc : a = c <;> simp [splitChar, h, hc]

theorem splitChar_length (c : Char) (l : List Char) :
    (splitChar c l).length = l.count c + 1 := by
  induction l with
  | nil => simp [splitChar]
  | cons a as ih =>
    cases h : splitChar c as with
    | nil => exact absurd h (splitChar_ne_nil c as)
    | cons x xs =>
      rw [h] at ih
      by_cases hc : a = c <;>
        simp [splitChar, h, hc, List.count_cons] at ih ⊢ <;> omega

theorem splitChar_of_not_mem (c : Char) (l : List Char) (h : c ∉ l) :
    splitChar c l = [l] := by
  induction l with
  | nil => simp [splitChar]
  | cons a as ih =>
    have ha : ¬a = c := by
      intro hac
      exact h (hac ▸ List.mem_cons_self a as)
    have h2 : c ∉ as := fun hm => h (List.mem_cons_of_mem _ hm)
    simp [splitChar, ih h2, ha]

theorem splitChar_append (c : Char) (l1 l2 : List Char) (h : c ∉ l1) :
    splitChar c (l1 ++ c :: l2) = l1 :: splitChar c l2 := by
  induction l1 with
  | nil =>
    cases hs : splitChar c l2 with
    | nil => exact absurd hs (splitChar_ne_nil c l2)
    | cons x xs => simp [splitChar, hs]
  | cons a as ih =>
    have ha : ¬a = c := by
      intro hac
      exact h (hac ▸ List.mem_cons_self a as)
    have h2 : c ∉ as := fun hm => h (List.mem_cons_of_mem _ hm)
    simp [splitChar, List.append_eq, ih h2, ha]

theorem mk_toList (s : String) : String.mk s.toList = s := rfl

end DockerUI

namespace DockerUI

/-! ## Characterization of the tag destructure at line 842 -/

theorem exists_cons3_of_three_le_length {α : Type} (l : List α) (h : 3 ≤ l.length) :
    ∃ a b c rest, l = a :: b :: c :: rest := by
  rcases l with _ | ⟨a, l⟩
  · simp only [List.length_nil] at h; omega
  rcases l with _ | ⟨b, l⟩
  · simp only [List.length_cons, List.length_nil] at h; omega
  rcases l with _ | ⟨c, rest⟩
  · simp only [List.length_cons, List.length_nil] at h; omega
  exact ⟨a, b, c, rest, rfl⟩

theorem exists_pair_of_length_eq_two {α : Type} (l : List α) (h : l.length = 2) :
    ∃ a b, l = [a, b] := by
  rcases l with _ | ⟨a, l⟩
  · simp only [List.length_nil] at h; omega
  rcases l with _ | ⟨b, l⟩
  · simp only [List.length_cons, List.length_nil] at h; omega
  rcases l with _ | ⟨c, rest⟩
  · exact ⟨a, b, rfl⟩
  · simp only [List.length_cons] at h; omega

theorem pySplit_length (c : Char) (t : String) :
    (pySplit c t).length = t.toList.count c + 1 := by
  simp only [pySplit, List.length_map]
  exact splitChar_length c t.toList

theorem parseTag_error_of_two_colons (t : String) (h : 2 ≤ t.toList.count ':') :
    parseTag t = .error "too many values to unpack (expected 2)" := by
  have hmem : ':' ∈ t.toList := List.count_pos_iff.mp (by omega)
  have hcon : t.toList.contains ':' = true := List.elem_eq_true_of_mem hmem
  have hlen : (pySplit ':' t).length = t.toList.count ':' + 1 := pySplit_length ':' t
  obtain ⟨a, b, c2, rest, hps⟩ :=
    exists_cons3_of_three_le_length (pySplit ':' t) (by omega)
  rw [parseTag, if_pos hcon, hps]

theorem parseTag_of_no_colon (t : String) (h : t.toList.count ':' = 0) :
    parseTag t = .ok (t, "latest") := by
  have hmem : ':' ∉ t.toList := by
    intro hm
    have := List.count_pos_iff.mpr hm
    omega
  have hcon : ¬t.toList.contains ':' = true := by
    intro hc
    exact absurd (List.mem_of_elem_eq_true hc) hmem
  rw [parseTag, if_neg hcon]

theorem parseTag_ok_of_one_colon (t : String) (h : t.toList.count ':' = 1) :
    ∃ r tg, parseTag t = .ok (r, tg) := by
  have hmem : ':' ∈ t.toList := List.count_pos_iff.mp (by omega)
  have hcon : t.toList.contains ':' = true := List.elem_eq_true_of_mem hmem
  have hlen : (pySplit ':' t).length = t.toList.count ':' + 1 := pySplit_length ':' t
  obtain ⟨a, b, hps⟩ := exists_pair_of_length_eq_two (pySplit ':' t) (by omega)
  exact ⟨a, b, by rw [parseTag, if_pos hcon, hps]⟩

end DockerUI

namespace DockerUI

/-! ## Membership characterization of the rebuilt local view -/

theorem mem_buildTagRecords (img : RuntimeImage) (ts : List String) (rec : LocalImage)
    (herr : (buildTagRecords img ts).2 = none) :
    rec ∈ (buildTagRecords img ts).1 ↔ ∃ t ∈ ts, mkFromTag img t = some rec := by
  induction ts with
  | nil => simp [buildTagRecords]
  | cons t ts ih =>
    cases hp : parseTag t with
    | error e =>
      rw [buildTagRecords, hp] at herr
      simp at herr
    | ok p =>
      cases he : buildTagRecords img ts with
      | mk rest err =>
        rw [he] at ih
        rw [buildTagRecords, hp, he] at herr ⊢
        simp only at herr
        simp only [List.mem_cons, mkFromTag]
        constructor
        · rintro (rfl | hrest)
          · exact ⟨t, Or.inl rfl, by rw [hp]⟩
          · obtain ⟨u, hu, hmk⟩ := (ih herr).mp hrest
            exact ⟨u, Or.inr hu, hmk⟩
        · rintro ⟨u, hu, hmk⟩
          rcases hu with rfl | hu2
          · rw [hp] at hmk
            simp at hmk
            exact Or.inl hmk.symm
          · exact Or.inr ((ih herr).mpr ⟨u, hu2, hmk⟩)

theorem mem_buildLocalImages (imgs : List RuntimeImage) (rec : LocalImage)
    (herr : (buildLocalImages imgs).2 = none) :
    rec ∈ (buildLocalImages imgs).1 ↔
      ∃ img ∈ imgs, ∃ t ∈ effTags img, mkFromTag img t = some rec := by
  induction imgs with
  | nil => simp [buildLocalImages]
  | cons img rest ih =>
    cases he : buildTagRecords img (effTags img) with
    | mk here err =>
      cases err with
      | some e =>
        rw [buildLocalImages, he] at herr
        simp at herr
      | none =>
        cases he2 : buildLocalImages rest with
        | mk more err2 =>
          rw [he2] at ih
          rw [buildLocalImages, he, he2] at herr ⊢
          simp only at herr
          simp only [List.mem_append, List.mem_cons]
          have hhere : rec ∈ here ↔ ∃ t ∈ effTags img, mkFromTag img t = some rec := by
            have := mem_buildTagRecords img (effTags img) rec (by rw [he])
            rw [he] at this
            exact this
          constructor
          · rintro (hh | hm)
            · exact ⟨img, Or.inl rfl, hhere.mp hh⟩
            · obtain ⟨i2, hi2, hrest⟩ := (ih herr).mp hm
              exact ⟨i2, Or.inr hi2, hrest⟩
          · rintro ⟨i2, hi2 | hi2, hrest⟩
            · exact Or.inl (hhere.mpr (hi2 ▸ hrest))
            · exact Or.inr ((ih herr).mpr ⟨i2, hi2, hrest⟩)

end DockerUI

namespace DockerUI

/-! ## Claim theorems -/

/-- C1: reconciliation is idempotent — for fixed upstream responses,
running the catalog/tag fetch-and-rebuild twice leaves the image list
identical to running it once, and likewise for the local-image refresh:
the second pass, started from the first pass's state, reproduces the
first pass's state exactly. -/
theorem C1_reconcile_idempotent (url repo : String) (prev : List ArtifactoryImage)
    (catalog : Fetched (Option (List String)))
    (tagsOf : String → Fetched (Option (List String)))
    (prevL : List LocalImage) (avail : Bool)
    (lst : Except String (List RuntimeImage)) :
    (fetch_artifactory_images (fetch_artifactory_images prev url repo catalog tagsOf).1
        url repo catalog tagsOf).1
      = (fetch_artifactory_images prev url repo catalog tagsOf).1
    ∧ (refresh_local_images (refresh_local_images prevL avail lst).1 avail lst).1
      = (refresh_local_images prevL avail lst).1 := by
  constructor
  · cases catalog with
    | exn e => rfl
    | ok resp =>
      by_cases h : resp.status = 200
      · simp [fetch_artifactory_images, h]
      · simp [fetch_artifactory_images, h]
  · cases avail with
    | false => rfl
    | true =>
      cases lst with
      | error e => rfl
      | ok imgs => simp [refresh_local_images]

/-- C5: when the whole remote source fails — the catalog request raises
or returns a non-2xx status — the previously reconciled image list is
retained byte for byte, and the failure is surfaced as a single
top-level error, not attached to any record. -/
theorem C5_whole_source_failure_atomic (prev : List ArtifactoryImage) (url repo : String)
    (tagsOf : String → Fetched (Option (List String))) :
    (∀ e, fetch_artifactory_images prev url repo (.exn e) tagsOf =
        (prev, some ("Failed to fetch images: " ++ e)))
    ∧ (∀ (st : Nat) (body : Option (List String)), st ≠ 200 →
        fetch_artifactory_images prev url repo (.ok ⟨st, body⟩) tagsOf =
          (prev, some ("Failed to fetch images: HTTP " ++ toString st))) := by
  constructor
  · intro e
    rfl
  · intro st body hst
    simp [fetch_artifactory_images, hst]

/-- Witness for C5 at a concrete prior view, a raised catalog request
and a 503 catalog response. -/
theorem C5_whole_source_failure_atomic_witness :
    fetch_artifactory_images [mkArtifactoryImage "u" "rp" "x" "1"] "u" "rp"
        (.exn "timeout") (fun _ => .exn "unused") =
      ([mkArtifactoryImage "u" "rp" "x" "1"], some "Failed to fetch images: timeout")
    ∧ fetch_artifactory_images [mkArtifactoryImage "u" "rp" "x" "1"] "u" "rp"
        (.ok ⟨503, none⟩) (fun _ => .exn "unused") =
      ([mkArtifactoryImage "u" "rp" "x" "1"], some "Failed to fetch images: HTTP 503") :=
  ⟨(C5_whole_source_failure_atomic [mkArtifactoryImage "u" "rp" "x" "1"] "u" "rp"
      (fun _ => .exn "unused")).1 "timeout",
   (C5_whole_source_failure_atomic [mkArtifactoryImage "u" "rp" "x" "1"] "u" "rp"
      (fun _ => .exn "unused")).2 503 none (by decide)⟩

/-- C10: a 2xx tag-list response whose JSON body has no "tags" key makes
the fetch fabricate the single tag "latest" for that repository: the
record (repo, "latest") appears in the rebuilt view although the
registry never reported that tag. -/
theorem C10_missing_tags_key_fabricates_latest (prev : List ArtifactoryImage)
    (url repo r : String) (rest : List String)
    (tagsOf : String → Fetched (Option (List String)))
    (h : tagsOf r = .ok ⟨200, none⟩) :
    mkArtifactoryImage url repo r "latest" ∈
      (fetch_artifactory_images prev url repo (.ok ⟨200, some (r :: rest)⟩) tagsOf).1 := by
  simp only [fetch_artifactory_images, Option.getD_some, if_pos rfl]
  rw [buildCatalog, h]
  cases hb : buildCatalog url repo tagsOf rest with
  | mk more err => simp

/-- Witness for C10: a catalog with one repository whose tag-list
response is 200 with a body lacking the "tags" key. -/
theorem C10_missing_tags_key_fabricates_latest_witness :
    mkArtifactoryImage "u" "rp" "app" "latest" ∈
      (fetch_artifactory_images [] "u" "rp" (.ok ⟨200, some ["app"]⟩)
        (fun _ => .ok ⟨200, none⟩)).1 :=
  C10_missing_tags_key_fabricates_latest [] "u" "rp" "app" [] (fun _ => .ok ⟨200, none⟩) rfl

end DockerUI

namespace DockerUI

/-- C9: the local refresh is not total over runtime tag strings — a tag
with two or more colons makes the destructure at line 842 raise, so a
whole refresh over such an image fails and produces no record for it; a
tag with exactly one colon destructures into (repo, tag), and a tag with
no colon defaults the tag to "latest". -/
theorem C9_refresh_not_total_over_tags :
    (∀ t : String, 2 ≤ t.toList.count ':' →
        parseTag t = .error "too many values to unpack (expected 2)")
    ∧ (∀ t : String, t.toList.count ':' = 0 → parseTag t = .ok (t, "latest"))
    ∧ (∀ t : String, t.toList.count ':' = 1 → ∃ r tg, parseTag t = .ok (r, tg))
    ∧ (∀ (prev : List LocalImage) (img : RuntimeImage) (t : String),
        2 ≤ t.toList.count ':' → img.tags = [t] →
        refresh_local_images prev true (.ok [img]) =
          ([], some "Failed to refresh local images: too many values to unpack (expected 2)"))
    ∧ (∀ (prev : List LocalImage) (img : RuntimeImage) (t r tg : String),
        img.tags = [t] → parseTag t = .ok (r, tg) →
        refresh_local_images prev true (.ok [img]) = ([mkLocalImage img r tg], none)) := by
  refine ⟨parseTag_error_of_two_colons, parseTag_of_no_colon, parseTag_ok_of_one_colon, ?_, ?_⟩
  · intro prev img t h2 htags
    have herr := parseTag_error_of_two_colons t h2
    have htag1 : effTags img = [t] := by simp [effTags, htags]
    show buildLocalImages [img] = _
    rw [buildLocalImages, htag1, buildTagRecords, herr]
    rfl
  · intro prev img t r tg htags hok
    have htag1 : effTags img = [t] := by simp [effTags, htags]
    show buildLocalImages [img] = _
    rw [buildLocalImages, htag1, buildTagRecords, hok]
    rfl

/-- Witness for C9: a registry-host-with-port tag fails the whole refresh,
a one-colon tag and a colon-free tag succeed. -/
theorem C9_refresh_not_total_over_tags_witness :
    parseTag "host:5000/repo:1.0" = .error "too many values to unpack (expected 2)"
    ∧ refresh_local_images [] true (.ok [⟨["host:5000/repo:1.0"], "sha", 0, "c"⟩]) =
        ([], some "Failed to refresh local images: too many values to unpack (expected 2)")
    ∧ parseTag "alpine" = .ok ("alpine", "latest")
    ∧ refresh_local_images [] true (.ok [⟨["alpine:3.18"], "sha", 0, "c"⟩]) =
        ([mkLocalImage ⟨["alpine:3.18"], "sha", 0, "c"⟩ "alpine" "3.18"], none) :=
  ⟨C9_refresh_not_total_over_tags.1 "host:5000/repo:1.0" (by decide),
   C9_refresh_not_total_over_tags.2.2.2.1 [] ⟨["host:5000/repo:1.0"], "sha", 0, "c"⟩
     "host:5000/repo:1.0" (by decide) rfl,
   C9_refresh_not_total_over_tags.2.1 "alpine" (by decide),
   C9_refresh_not_total_over_tags.2.2.2.2 [] ⟨["alpine:3.18"], "sha", 0, "c"⟩
     "alpine:3.18" "alpine" "3.18" rfl rfl⟩

end DockerUI

namespace DockerUI

/-- C2 counterexample: the ref (alpine, 3.18) has its remote signal true
(it is present in the freshly fetched catalog view) yet a successful
local refresh over an empty runtime image list yields an empty view,
dropping the record even though it was present before — the claimed
"record exists iff one of the three signals is true" fails in the if
direction, because the rebuilt view is fed by the runtime list alone. -/
theorem C2_pruning_invariant_counterexample :
    (fetch_artifactory_images [] "https://art" "rp" (.ok ⟨200, some ["alpine"]⟩)
        (fun _ => .ok ⟨200, some ["3.18"]⟩)).1 =
      [mkArtifactoryImage "https://art" "rp" "alpine" "3.18"]
    ∧ refresh_local_images
        [⟨"alpine", "3.18", "sha", "0.00 MB", "c", "alpine:3.18"⟩] true (.ok []) =
      ([], none) := by
  constructor
  · decide
  · rfl

/-- C2 amended: in the code the local view is rebuilt from the runtime
image list alone. After a refresh that surfaces no error, a record is in
the view iff some runtime image carries a tag string that destructures
to it; the result does not depend on the previous view at all, so a ref
whose runtime signal disappeared is gone exactly one refresh later, and
remote-catalog membership or cached archives never add a record. -/
theorem C2_local_view_membership (prev : List LocalImage) (imgs : List RuntimeImage)
    (herr : (refresh_local_images prev true (.ok imgs)).2 = none) :
    (∀ rec : LocalImage,
      rec ∈ (refresh_local_images prev true (.ok imgs)).1 ↔
        ∃ img ∈ imgs, ∃ t ∈ effTags img, mkFromTag img t = some rec)
    ∧ (∀ prev2 : List LocalImage,
        refresh_local_images prev2 true (.ok imgs) =
          refresh_local_images prev true (.ok imgs)) := by
  constructor
  · intro rec
    exact mem_buildLocalImages imgs rec herr
  · intro prev2
    rfl

/-- Witness for C2 amended: one runtime image with the tag alpine:3.18
produces exactly the matching record, and the membership equivalence
holds at that input. -/
theorem C2_local_view_membership_witness :
    ((refresh_local_images [] true (.ok [⟨["alpine:3.18"], "sha", 0, "c"⟩])).2 = none)
    ∧ (mkLocalImage ⟨["alpine:3.18"], "sha", 0, "c"⟩ "alpine" "3.18" ∈
        (refresh_local_images [] true (.ok [⟨["alpine:3.18"], "sha", 0, "c"⟩])).1 ↔
      ∃ img ∈ [(⟨["alpine:3.18"], "sha", 0, "c"⟩ : RuntimeImage)], ∃ t ∈ effTags img,
        mkFromTag img t = some (mkLocalImage ⟨["alpine:3.18"], "sha", 0, "c"⟩ "alpine" "3.18")) :=
  ⟨rfl,
   (C2_local_view_membership [] [⟨["alpine:3.18"], "sha", 0, "c"⟩] rfl).1
     (mkLocalImage ⟨["alpine:3.18"], "sha", 0, "c"⟩ "alpine" "3.18")⟩

end DockerUI

namespace DockerUI

/-- C6 counterexample: the search text "sha" is a substring of neither
the repository "alpine" nor the tag "3.18", yet the row stays visible
because the loop at line 900 also searches column 2, the image id — the
claimed "no other field participates in matching" fails. -/
theorem C6_filter_counterexample :
    filter_local_images [⟨"alpine", "3.18", "sha256:ab12", "0.00 MB", "c", "alpine:3.18"⟩]
        "sha" =
      [⟨"alpine", "3.18", "sha256:ab12", "0.00 MB", "c", "alpine:3.18"⟩]
    ∧ pyInStr (pyLower "sha") (pyLower "alpine") = false
    ∧ pyInStr (pyLower "sha") (pyLower "3.18") = false := by
  refine ⟨?_, by decide, by decide⟩
  decide

/-- C6 amended: a record passes the search filter iff the lowered search
text is a substring of the lowered repository, tag, or image id, and the
filtered output is a sublist of the view — the natural ordering is
preserved, rows are only hidden in place. -/
theorem C6_filter_search_semantics (imgs : List LocalImage) (search : String) :
    List.Sublist (filter_local_images imgs search) imgs
    ∧ ∀ rec : LocalImage,
        rec ∈ filter_local_images imgs search ↔
          rec ∈ imgs ∧
            (pyInStr (pyLower search) (pyLower rec.repository) = true
              ∨ pyInStr (pyLower search) (pyLower rec.tag) = true
              ∨ pyInStr (pyLower search) (pyLower rec.id) = true) := by
  constructor
  · exact List.filter_sublist imgs
  · intro rec
    simp only [filter_local_images, List.mem_filter, rowMatches, Bool.or_eq_true]
    tauto

end DockerUI

namespace DockerUI

/-- C7 counterexample: the refs (a_b, c) and (a, b_c) are distinct but
encode to the same archive filename a_b_c.tar, so no decoder can
round-trip both; the split-and-destructure decoder in the source's style
in fact recovers neither, failing on the three-part split. -/
theorem C7_naming_roundtrip_counterexample :
    cacheFileName "a_b" "c" = cacheFileName "a" "b_c"
    ∧ ("a_b", "c") ≠ ("a", "b_c")
    ∧ parseCacheFileName (cacheFileName "a_b" "c") = none := by
  refine ⟨rfl, by decide, by decide⟩

/-- C7 amended: the filename round-trip holds exactly on refs whose
repository and tag are both free of underscores; deriving the archive
name and parsing it back then reproduces the ref. -/
theorem C7_naming_roundtrip_no_underscore (repo tag : String)
    (hr : '_' ∉ repo.toList) (ht : '_' ∉ tag.toList) :
    parseCacheFileName (cacheFileName repo tag) = some (repo, tag) := by
  have hlist : (cacheFileName repo tag).toList
      = (repo.toList ++ '_' :: tag.toList) ++ ".tar".toList := by
    show (repo.toList ++ "_".toList ++ tag.toList ++ ".tar".toList) = _
    simp
  have hsuf : (".tar".toList).isSuffixOf (cacheFileName repo tag).toList = true := by
    rw [hlist]
    exact List.isSuffixOf_iff_suffix.mpr ⟨_, rfl⟩
  have hstemlen : (repo.toList ++ '_' :: tag.toList).length
      = ((repo.toList ++ '_' :: tag.toList) ++ ".tar".toList).length - 4 := by
    simp
    omega
  have htake : (cacheFileName repo tag).toList.take
      ((cacheFileName repo tag).toList.length - 4) = repo.toList ++ '_' :: tag.toList := by
    conv_lhs => rw [hlist]
    exact List.take_left' hstemlen
  have hsplit : splitChar '_' (repo.toList ++ '_' :: tag.toList)
      = [repo.toList, tag.toList] := by
    rw [splitChar_append '_' repo.toList tag.toList hr,
      splitChar_of_not_mem '_' tag.toList ht]
  simp only [parseCacheFileName, hsuf, if_true, htake, hsplit, List.map_cons,
    List.map_nil, mk_toList]

/-- Witness for C7 amended at the underscore-free ref (repo, 1.0). -/
theorem C7_naming_roundtrip_no_underscore_witness :
    parseCacheFileName (cacheFileName "repo" "1.0") = some ("repo", "1.0") :=
  C7_naming_roundtrip_no_underscore "repo" "1.0" (by decide) (by decide)

end DockerUI

namespace DockerUI

/-- C8 counterexample: submitting two downloads of the same ref from an
idle engine leaves two workers for that ref in flight at once — the
second submission is started immediately, not queued behind the first. -/
theorem C8_serialization_counterexample :
    ((download_image_submit (download_image_submit ⟨[]⟩ "u/rp/a:1") "u/rp/a:1").inFlight.count
      "u/rp/a:1") = 2 := by
  decide

/-- C8 amended: the code has no per-ref gate — whatever is already in
flight, a new submission for the same ref starts at once, so a ref with
an unfinished worker ends up with at least two concurrent workers. -/
theorem C8_no_per_ref_serialization (s : EngineState) (ref : String)
    (h : ref ∈ s.inFlight) :
    2 ≤ (download_image_submit s ref).inFlight.count ref := by
  have h1 : 1 ≤ s.inFlight.count ref := List.count_pos_iff.mpr h
  simp only [download_image_submit, List.count_cons, beq_self_eq_true, if_true]
  omega

/-- Witness for C8 amended: one worker for the ref is already running. -/
theorem C8_no_per_ref_serialization_witness :
    ("r:1" ∈ (EngineState.mk ["r:1"]).inFlight)
    ∧ 2 ≤ (download_image_submit ⟨["r:1"]⟩ "r:1").inFlight.count "r:1" :=
  ⟨by decide, C8_no_per_ref_serialization ⟨["r:1"]⟩ "r:1" (by decide)⟩

/-- C4 counterexample: in the batch over targets a, b, c where only the
pull of b fails, the observable outcome is three independent worker
traces ending in the per-target terminal flags true, false, true; the
target records are returned unchanged — in particular b's record still
has only its five dict fields with their prior values, so the failure is
recorded in no record field — and no component of the result is a
run-level Completed or Failed outcome. -/
theorem C4_batch_outcome_counterexample :
    download_selected_images
        [mkArtifactoryImage "u" "rp" "a" "1",
         mkArtifactoryImage "u" "rp" "b" "1",
         mkArtifactoryImage "u" "rp" "c" "1"]
        (fun n => if n = "u/rp/b:1" then .error "boom" else .ok ()) =
      [ (mkArtifactoryImage "u" "rp" "a" "1",
          [.progress "Pulling u/rp/a:1...",
           .progress "Successfully pulled u/rp/a:1", .finished true]),
        (mkArtifactoryImage "u" "rp" "b" "1",
          [.progress "Pulling u/rp/b:1...",
           .errorMsg "Failed to pull u/rp/b:1: boom", .finished false]),
        (mkArtifactoryImage "u" "rp" "c" "1",
          [.progress "Pulling u/rp/c:1...",
           .progress "Successfully pulled u/rp/c:1", .finished true]) ] := by
  decide

/-- C4 amended: a single target's failure never aborts the batch — every
selected target appears in the outcome, paired with the trace of its own
worker, which depends only on that target's pull result; failures are
surfaced per target as an error event and dialog, but no lastError is
stored on any record and no run-level Completed or Failed state exists. -/
theorem C4_batch_never_aborts (targets : List ArtifactoryImage)
    (puller : String → Except String Unit) (t : ArtifactoryImage) (ht : t ∈ targets) :
    ((t, pullEvents t.full_name (puller t.full_name)) ∈
        download_selected_images targets puller)
    ∧ (download_selected_images targets puller).length = targets.length := by
  constructor
  · exact List.mem_map_of_mem _ ht
  · simp [download_selected_images]

/-- Witness for C4 amended: the failing middle target of the
counterexample batch is still processed, with its own error trace. -/
theorem C4_batch_never_aborts_witness :
    ((mkArtifactoryImage "u" "rp" "b" "1",
        pullEvents (mkArtifactoryImage "u" "rp" "b" "1").full_name
          ((fun n => if n = "u/rp/b:1" then .error "boom" else .ok ())
            (mkArtifactoryImage "u" "rp" "b" "1").full_name)) ∈
      download_selected_images
        [mkArtifactoryImage "u" "rp" "a" "1",
         mkArtifactoryImage "u" "rp" "b" "1",
         mkArtifactoryImage "u" "rp" "c" "1"]
        (fun n => if n = "u/rp/b:1" then .error "boom" else .ok ()))
    ∧ (download_selected_images
        [mkArtifactoryImage "u" "rp" "a" "1",
         mkArtifactoryImage "u" "rp" "b" "1",
         mkArtifactoryImage "u" "rp" "c" "1"]
        (fun n => if n = "u/rp/b:1" then .error "boom" else .ok ())).length = 3 :=
  C4_batch_never_aborts
    [mkArtifactoryImage "u" "rp" "a" "1",
     mkArtifactoryImage "u" "rp" "b" "1",
     mkArtifactoryImage "u" "rp" "c" "1"]
    (fun n => if n = "u/rp/b:1" then .error "boom" else .ok ())
    (mkArtifactoryImage "u" "rp" "b" "1")
    (by decide)

end DockerUI

namespace DockerUI

/-- C3 counterexample: the catalog lists a and b; the tag-list request
for b returns 404. The fetch result contains the record from a and no
error at all — repository b is silently dropped: its failure is reported
nowhere, neither per repository nor top-level. -/
theorem C3_partial_fetch_counterexample :
    fetch_artifactory_images [] "https://art" "rp" (.ok ⟨200, some ["a", "b"]⟩)
      (fun i => if i = "a" then .ok ⟨200, some ["1"]⟩ else .ok ⟨404, none⟩) =
    ([mkArtifactoryImage "https://art" "rp" "a" "1"], none) := by
  decide

/-- C3 amended: when the catalog succeeds and no tag-list request raises
an exception, the listing never aborts: each repository contributes its
own block of records — the tag expansion for a 2xx tag-list and nothing
for a non-2xx one — and no error is surfaced, so a failed repository is
silently omitted rather than reported; a raised tag-list request, by
contrast, aborts the remainder of the loop with one top-level error. -/
theorem C3_nonexn_fetch_never_aborts (url repo : String) (prev : List ArtifactoryImage)
    (repos : List String) (tagsOf : String → Fetched (Option (List String)))
    (hok : ∀ img ∈ repos, ∃ resp, tagsOf img = .ok resp) :
    fetch_artifactory_images prev url repo (.ok ⟨200, some repos⟩) tagsOf =
      (repos.flatMap (fun img =>
        match tagsOf img with
        | .ok resp =>
            if resp.status = 200 then
              (resp.body.getD ["latest"]).map (mkArtifactoryImage url repo img)
            else []
        | .exn _ => []), none) := by
  show buildCatalog url repo tagsOf repos = _
  revert hok
  induction repos with
  | nil =>
    intro _
    simp [buildCatalog]
  | cons img rest ih =>
    intro hok
    obtain ⟨resp, hresp⟩ := hok img (List.mem_cons_self img rest)
    have hrest : ∀ i ∈ rest, ∃ r, tagsOf i = .ok r :=
      fun i hi => hok i (List.mem_cons_of_mem _ hi)
    simp [buildCatalog, hresp, ih hrest, List.flatMap_cons]

/-- Witness for C3 amended at the counterexample's inputs: both tag-list
requests return (one 200, one 404), and the resulting view is the flat
expansion that skips the failed repository. -/
theorem C3_nonexn_fetch_never_aborts_witness :
    fetch_artifactory_images [] "https://art" "rp" (.ok ⟨200, some ["a", "b"]⟩)
      (fun i => if i = "a" then .ok ⟨200, some ["1"]⟩ else .ok ⟨404, none⟩) =
      ((["a", "b"].flatMap (fun img =>
        match (fun i => if i = "a" then Fetched.ok (⟨200, some ["1"]⟩ : HttpResp (Option (List String)))
            else .ok ⟨404, none⟩) img with
        | .ok resp =>
            if resp.status = 200 then
              (resp.body.getD ["latest"]).map (mkArtifactoryImage "https://art" "rp" img)
            else []
        | .exn _ => [])), none) :=
  C3_nonexn_fetch_never_aborts "https://art" "rp" [] ["a", "b"]
    (fun i => if i = "a" then .ok ⟨200, some ["1"]⟩ else .ok ⟨404, none⟩)
    (by
      intro i hi
      simp only [List.mem_cons, List.not_mem_nil, or_false] at hi
      rcases hi with rfl | rfl
      · exact ⟨⟨200, some ["1"]⟩, rfl⟩
      · exact ⟨⟨404, none⟩, rfl⟩)

end DockerUI
